import Mathlib

/-!
Shallow embedding of the RAG HTTP service backend (FastAPI application under
`backend/app`) and proofs about its handlers.

Conventions used throughout:
- The persistent Chroma collection is modelled as a `List StoredChunk`; the
  external store assigns chunk ids, so a well-formed store has pairwise
  distinct `id` fields (stated as a hypothesis where needed).
- Python exceptions are modelled with `Except`; a FastAPI `HTTPException`
  is a status code plus a detail string, and — crucially — it is an ordinary
  subclass of `Exception`, so a blanket `except Exception` clause catches it.
- Outcomes of calls into external collaborators (Chroma similarity search,
  the chat model, the Ragas metrics) are supplied as explicit oracle values,
  one per call site, so each theorem quantifies over every possible
  collaborator behaviour.
- Wall-clock timing (`query_time_ms`) is outside the model.
-/

/-- A FastAPI/Starlette `HTTPException`: status code plus detail string. -/
structure HTTPExc where
  status_code : Nat
  detail : String
deriving DecidableEq

/-- Starlette defines `HTTPException.__str__` as the string
`"{status_code}: {detail}"`; this is what `str(e)` produces when a handler
catches an `HTTPException` with a blanket `except Exception as e`. -/
def strOfHTTPExc (e : HTTPExc) : String :=
  toString e.status_code ++ ": " ++ e.detail

/-- Result of one HTTP handler invocation: either a successful payload or an
error response carrying an HTTP status code and a detail message. -/
inductive HandlerResult (α : Type) where
  | ok : α → HandlerResult α
  | httpError : Nat → String → HandlerResult α
deriving DecidableEq

/-- One record of the persistent vector-store collection: a chunk of an
uploaded document.  `id` is the chunk id assigned by the store itself;
`source_document_id` and `filename` are the provenance metadata stamped on
every chunk by the upload handler (`documents.py`, lines 63-65). -/
structure StoredChunk where
  id : String
  source_document_id : String
  filename : String
  text : String
deriving DecidableEq

/-- Test from `documents.py`: whether a stored chunk belongs to the document,
i.e. the `where={"source_document_id": document_id}` filter of
`vector_store.get`. -/
def chunkMatches (document_id : String) (c : StoredChunk) : Bool :=
  c.source_document_id == document_id

/-- Response model `DocumentDetailResponse` (a `DocumentBase`) as populated by
`get_document_details`: id, filename of the first chunk, the literal status
"indexed", and the chunk count. -/
structure DocumentDetailResponse where
  id : String
  filename : String
  status : String
  indexed_chunks : Nat
deriving DecidableEq

/-- Body of the `try` block of `get_document_details` (`documents.py`,
lines 150-173).  Raising `HTTPException(404, ...)` when no chunk carries the
requested `source_document_id` is modelled as an `Except.error`.  The filename
is read from the metadata of the first matching chunk ("N/A" when there is none,
mirroring line 161). -/
def get_document_details_body (store : List StoredChunk) (document_id : String) :
    Except HTTPExc DocumentDetailResponse :=
  let results := store.filter (chunkMatches document_id)
  if results.isEmpty then
    .error ⟨404, "Document with source_document_id \x27" ++ document_id ++
      "\x27 not found or has no chunks."⟩
  else
    let filename := match results.head? with
      | some c => c.filename
      | none => "N/A"
    .ok ⟨document_id, filename, "indexed", results.length⟩

/-- Handler `GET /api/v1/documents/{document_id}` (`documents.py`,
lines 141-175).  The `except Exception as e` clause at line 174 catches every
exception raised in the `try` block — including the `HTTPException(404)`
raised at line 158, since the FastAPI `HTTPException` subclasses `Exception` —
and re-raises it as a 500 whose detail wraps `str(e)`. -/
def get_document_details (store : List StoredChunk) (document_id : String) :
    HandlerResult DocumentDetailResponse :=
  match get_document_details_body store document_id with
  | .ok r => .ok r
  | .error e => .httpError 500 ("Error retrieving document details: " ++ strOfHTTPExc e)

/-- Body of the `try` block of `delete_document` (`documents.py`,
lines 186-201): fetch the ids of the chunks carrying the requested
`source_document_id`; if there are any, delete exactly those ids from the
store and report the count, otherwise raise `HTTPException(404, ...)`.
(The inner `else` of the source at lines 198-199 is dead code: it re-tests the
same non-empty id list.)  Returns the response message and the store after
deletion. -/
def delete_document_body (store : List StoredChunk) (document_id : String) :
    Except HTTPExc (String × List StoredChunk) :=
  let ids_to_delete := (store.filter (chunkMatches document_id)).map StoredChunk.id
  if ids_to_delete.isEmpty then
    .error ⟨404, "Document with source_document_id \x27" ++ document_id ++
      "\x27 not found for deletion."⟩
  else
    .ok ("Document " ++ document_id ++ " and its " ++ toString ids_to_delete.length ++
           " chunks deleted successfully.",
         store.filter (fun c => !(ids_to_delete.contains c.id)))

/-- Handler `DELETE /api/v1/documents/{document_id}` (`documents.py`,
lines 178-205).  As in the detail handler, the blanket `except Exception`
at line 203 catches the `HTTPException(404)` raised at line 201 and re-raises
it as a 500 wrapping `str(e)`.  Returns the HTTP result together with the
store as left by the handler. -/
def delete_document (store : List StoredChunk) (document_id : String) :
    HandlerResult String × List StoredChunk :=
  match delete_document_body store document_id with
  | .ok (msg, newStore) => (.ok msg, newStore)
  | .error e => (.httpError 500 ("Error deleting document: " ++ strOfHTTPExc e), store)

/-- One uploaded multipart file as the handler sees it: the client-supplied
filename and declared content type (`UploadFile.filename` /
`UploadFile.content_type`). -/
structure UploadFileModel where
  filename : String
  content_type : String
deriving DecidableEq

/-- Response model `DocumentCreateResponse`: the per-file status record
returned by the upload handler. -/
structure DocumentCreateResponse where
  id : String
  filename : String
  status : String
deriving DecidableEq

/-- Behaviour of the fallible steps of one upload iteration, i.e. where (if
anywhere) the Python code raises for this file:
- `readRaises`: `await file.read()` or `tmp_file.write(...)` raises
  (`documents.py`, line 47) — the temporary file has already been created by
  `NamedTemporaryFile`, but `tmp_file_path` (line 48) is never assigned;
- `loadRaises`: `loader.load()` or `split_documents` raises (lines 60-68),
  after `tmp_file_path` was assigned;
- `loaded chunks addError`: loading and splitting succeed and yield `chunks`
  (the chunk texts); `addError = some msg` means `vector_store.add_documents`
  raises with message `msg` (only reachable when `chunks` is non-empty, since
  line 71 runs only under `if chunks:`). -/
inductive FileBehavior where
  | readRaises (msg : String)
  | loadRaises (msg : String)
  | loaded (chunks : List String) (addError : Option String)
deriving DecidableEq

/-- Lowercased character list of a string; models the Python `str.lower()` method for
the ASCII filenames and extensions compared here. -/
def lowerChars (s : String) : List Char :=
  s.toList.map Char.toLower

/-- Extension part of `os.path.splitext(name)[1]`: the substring from the last
dot onward, provided at least one earlier character of the name is not a dot
(leading dots, as in ".bashrc", start no extension). -/
def splitextSuffix (name : String) : String :=
  let cs := name.toList
  match cs.reverse.findIdx? (· == '.') with
  | none => ""
  | some k =>
      let dotIdx := cs.length - 1 - k
      if (cs.take dotIdx).any (· != '.') then String.mk (cs.drop dotIdx) else ""

/-- Test `tmp_file_path.lower().endswith(ext)` from `documents.py`,
lines 50-52.  The temporary path is a dotless random name followed by the
`splitext` suffix of the original filename (line 46), so the lowered path ends
with ".pdf"/".txt" exactly when the lowered suffix does. -/
def tmpPathEndsWithLower (f : UploadFileModel) (ext : String) : Bool :=
  ext.toList.isSuffixOf (lowerChars (splitextSuffix f.filename))

/-- Loader dispatch test of line 50: `PyPDFLoader` is selected. -/
def isPdfFile (f : UploadFileModel) : Bool :=
  f.content_type == "application/pdf" || tmpPathEndsWithLower f ".pdf"

/-- Loader dispatch test of line 52: `TextLoader` is selected. -/
def isTxtFile (f : UploadFileModel) : Bool :=
  f.content_type == "text/plain" || tmpPathEndsWithLower f ".txt"

/-- Whether some loader is selected for the file (lines 50-53); otherwise the
`else` branch of line 55 records an unsupported-type error. -/
def isSupported (f : UploadFileModel) : Bool :=
  isPdfFile f || isTxtFile f

/-- Outcome of one iteration of the upload loop: the status record appended to
`responses` (none when the file was skipped for an empty filename, line 41),
whether a temporary file was created on disk this iteration, and whether that
temporary file was removed again by the time the iteration completed. -/
structure IterResult where
  record : Option DocumentCreateResponse
  tempCreated : Bool
  tempRemoved : Bool
deriving DecidableEq

/-- One iteration of the upload loop (`documents.py`, lines 39-82) for a file
with freshly drawn uuid `docId`.  Key points mirrored from the source:
- an empty filename is skipped before anything else (line 40-41);
- `NamedTemporaryFile(delete=False)` creates the temporary file before the
  write; if the read/write raises (`readRaises`), the `except` clause records
  an error status, but the `finally` cleanup (lines 80-82) cannot remove this
  temporary file of the iteration because `tmp_file_path` was never assigned to
  it (the `tmp_file_path in locals()` guard sees at most a stale path from an
  earlier iteration, already deleted);
- an unsupported type is unlinked explicitly (line 56) and recorded as an
  error status without raising;
- any other exception (`loadRaises`, `addError`) is caught at line 78 and
  recorded as `"error: " ++ msg`, and the `finally` clause removes the
  temporary file via the assigned `tmp_file_path`. -/
def processOne (docId : String) (f : UploadFileModel) (b : FileBehavior) : IterResult :=
  if f.filename == "" then
    ⟨none, false, false⟩
  else
    match b with
    | .readRaises msg =>
        ⟨some ⟨docId, f.filename, "error: " ++ msg⟩, true, false⟩
    | .loadRaises msg =>
        if isSupported f then
          ⟨some ⟨docId, f.filename, "error: " ++ msg⟩, true, true⟩
        else
          ⟨some ⟨docId, f.filename, "error: unsupported file type " ++ f.content_type⟩,
            true, true⟩
    | .loaded chunks addError =>
        if isSupported f then
          if chunks.isEmpty then
            ⟨some ⟨docId, f.filename, "empty_or_unparsable"⟩, true, true⟩
          else
            match addError with
            | none => ⟨some ⟨docId, f.filename, "processed"⟩, true, true⟩
            | some msg => ⟨some ⟨docId, f.filename, "error: " ++ msg⟩, true, true⟩
        else
          ⟨some ⟨docId, f.filename, "error: unsupported file type " ++ f.content_type⟩,
            true, true⟩

/-- The `for file in files` loop of the upload handler, accumulating the
`responses` list.  `uuids i` is the uuid `uuid.uuid4()` drawn for the i-th
file (line 43). -/
def uploadLoop (uuids : Nat → String) (i : Nat)
    (files : List (UploadFileModel × FileBehavior)) : List DocumentCreateResponse :=
  match files with
  | [] => []
  | (f, b) :: rest =>
      match (processOne (uuids i) f b).record with
      | some r => r :: uploadLoop uuids (i + 1) rest
      | none => uploadLoop uuids (i + 1) rest

/-- Handler `POST /api/v1/documents/upload` (`documents.py`, lines 24-86):
400 for an empty file list (line 34-35), then the per-file loop, then the
line 84 safeguard returning 400 when no file produced a record; otherwise the
route responds 201 with the record list. -/
def upload_documents (files : List (UploadFileModel × FileBehavior))
    (uuids : Nat → String) : HandlerResult (List DocumentCreateResponse) :=
  if files.isEmpty then
    .httpError 400 "No files provided."
  else
    let responses := uploadLoop uuids 0 files
    if responses.isEmpty then
      .httpError 400 "No files were processed."
    else
      .ok responses

/-- HTTP status code of the upload route: the decorator declares
`status_code=201` for the success path. -/
def uploadHttpStatus (r : HandlerResult (List DocumentCreateResponse)) : Nat :=
  match r with
  | .ok _ => 201
  | .httpError code _ => code

/-- A Langchain chat/LLM client as constructed in `llm_services.py`: either a
real `ChatOpenAI` client or the deterministic `FakeListLLM` fallback. -/
inductive LLMClient where
  | chatOpenAI (model : String)
  | fakeListLLM (responses : List String)
deriving DecidableEq

/-- A Ragas `LangchainLLMWrapper` around an LLM client. -/
inductive RagasLLM where
  | wrapper (inner : LLMClient)
deriving DecidableEq

/-- Ragas `LangchainEmbeddingsWrapper` around either real `OpenAIEmbeddings`
or the `FakeEmbeddings(size=768)` fallback. -/
inductive RagasEmbeddings where
  | openaiWrapped
  | fakeWrapped (size : Nat)
deriving DecidableEq

/-- The three module-level bindings produced by importing
`app.core.llm_services`.  They are modelled as `Option`s because the query
handler defensively tests them against `None`. -/
structure LLMServices where
  rag_llm_client : Option LLMClient
  evaluator_llm : Option RagasLLM
  evaluator_embeddings : Option RagasEmbeddings
deriving DecidableEq

/-- The canned responses `_fake_llm_responses` of `llm_services.py`, line 9. -/
def fakeLLMResponses : List String :=
  List.replicate 10 "This is a fallback fake LLM response."

/-- Module initialization of `llm_services.py` (lines 9-48).  The whole
construction of the three OpenAI-backed clients sits in one `try`; on any
construction failure (`openaiInitOk = false`) the `except` block rebinds all
three names to the deterministic fakes, so every path binds every name.
`generalModel` and `ragasModel` are the environment-supplied model names. -/
def initLLMServices (openaiInitOk : Bool) (generalModel ragasModel : String) :
    LLMServices :=
  if openaiInitOk then
    ⟨some (.chatOpenAI generalModel),
     some (.wrapper (.chatOpenAI ragasModel)),
     some .openaiWrapped⟩
  else
    ⟨some (.fakeListLLM fakeLLMResponses),
     some (.wrapper (.fakeListLLM fakeLLMResponses)),
     some (.fakeWrapped 768)⟩

/-- One `(chunk, distance-score)` pair returned by
`vector_store.similarity_search_with_score`.  Chunks stored by this
application always carry `source_document_id` and `filename` metadata
(stamped at upload), so the `metadata.get` fallbacks of `rag.py` lines 51-52
are not taken.  Float distance scores are modelled as rationals. -/
structure RetrievedChunk where
  source_document_id : String
  filename : String
  page_content : String
  score : Rat
deriving DecidableEq

/-- Response model `SourceDocument` (`schemas.py`, lines 38-42). -/
structure SourceDocument where
  id : String
  document_name : String
  snippet : String
  score : Rat
deriving DecidableEq

/-- Construction of one `SourceDocument` from a retrieved pair (`rag.py`,
lines 48-56). -/
def mkSource (d : RetrievedChunk) : SourceDocument :=
  ⟨d.source_document_id, d.filename, d.page_content, d.score⟩

/-- Response model `MetricScore` (`schemas.py`, lines 44-47): three
independently optional scores. -/
structure MetricScore where
  response_relevancy : Option Rat
  bleu_score : Option Rat
  rouge_score : Option Rat
deriving DecidableEq

/-- Request model `RagQueryRequest` (`schemas.py`, lines 33-36) after
validation: `top_k` has been defaulted/validated by pydantic (see
`parseTopK`). -/
structure RagQueryRequest where
  query : String
  top_k : Nat
  reference_answer : Option String
deriving DecidableEq

/-- Pydantic validation of the `top_k` field, declared
`Optional[int] = Field(5, ge=1, le=20)`: an omitted field defaults to 5; a
supplied integer is accepted iff it lies in [1, 20], otherwise the request is
rejected with a validation error (HTTP 422). -/
def parseTopK : Option Int → Except String Nat
  | none => .ok 5
  | some v =>
      if 1 ≤ v ∧ v ≤ 20 then .ok v.toNat
      else .error "top_k must be between 1 and 20"

/-- Response model `RagQueryResponse` (`schemas.py`, lines 49-53), without the
wall-clock `query_time_ms` field. -/
structure RagQueryResponse where
  answer : String
  sources : List SourceDocument
  evaluation_scores : Option MetricScore
deriving DecidableEq

/-- Oracle for the collaborator calls made while serving one query: the
outcome of the Chroma `similarity_search_with_score` call, of the
`rag_llm_client.ainvoke` call (the returned message content on success), and
of `single_turn_ascore` for each of the three Ragas metrics (an `error` also
covers a raising metric constructor, since the `try` at `rag.py` line 133 spans
both). -/
structure QueryEnv where
  retrieval : Except String (List RetrievedChunk)
  llmResult : Except String String
  relevancyResult : Except String Rat
  bleuResult : Except String Rat
  rougeResult : Except String Rat

/-- Python string truthiness, as used by `if request.reference_answer:`
(`rag.py`, line 86): `None` and the empty string are falsy. -/
def optStrTruthy : Option String → Bool
  | none => false
  | some s => !(s == "")

/-- Python `str.strip()` over the character list: drop ASCII whitespace from
both ends (this also matches the Lean `String.trim` function). -/
def pyStrip (s : String) : String :=
  String.mk (((s.toList.dropWhile Char.isWhitespace).reverse.dropWhile
    Char.isWhitespace).reverse)

/-- Templated answer for an empty retrieval result (`rag.py`, line 62). -/
def noDocsAnswer (q : String) : String :=
  "I could not find any relevant documents for your query: \x27" ++ q ++
    "\x27. Please try rephrasing or uploading more relevant documents."

/-- Templated answer when the model invocation raises (`rag.py`, line 83). -/
def llmErrorAnswer (q : String) : String :=
  "An unexpected error occurred while generating the answer. (Query: " ++ q ++ ")"

/-- Templated answer of the defensive `rag_llm_client is None` branch
(`rag.py`, line 67). -/
def unavailableAnswer : String :=
  "The Language Model is currently unavailable. Please try again later."

/-- Answer generation for a non-empty source list (`rag.py`, lines 64-83),
returning (answer, llm was invoked, the `rag_llm_client is None` branch was
taken).  The content of a successful invocation is stripped (line 80); the inner
`except Exception as e_llm` replaces any invocation failure with the
templated error answer. -/
def generateAnswer (c : Option LLMClient) (llmResult : Except String String)
    (q : String) : String × Bool × Bool :=
  match c with
  | none => (unavailableAnswer, false, true)
  | some _ =>
      match llmResult with
      | .ok content => (pyStrip content, true, false)
      | .error _ => (llmErrorAnswer q, true, false)

/-- The per-metric loop of `rag.py`, lines 109-139, for a sample whose
`user_input`, `response` and `reference` fields are all present (they are
plain strings here, so the `required_fields` checks of line 117 always pass):
`response_relevancy` is skipped (`None`) when either evaluator collaborator
is `None` (lines 123-131); each failing metric computation is caught at
line 137 and recorded as `None`. -/
def computeMetricScores (e1 : Option RagasLLM) (e2 : Option RagasEmbeddings)
    (env : QueryEnv) : MetricScore :=
  let relevancy :=
    if e1.isNone || e2.isNone then none
    else match env.relevancyResult with
      | .ok s => some s
      | .error _ => none
  let bleu := match env.bleuResult with
    | .ok s => some s
    | .error _ => none
  let rouge := match env.rougeResult with
    | .ok s => some s
    | .error _ => none
  ⟨relevancy, bleu, rouge⟩

/-- The evaluation step of the query handler (`rag.py`, lines 86-142): runs
only when `request.reference_answer` is truthy. -/
def evalScores (e1 : Option RagasLLM) (e2 : Option RagasEmbeddings)
    (reference_answer : Option String) (env : QueryEnv) : Option MetricScore :=
  if optStrTruthy reference_answer then some (computeMetricScores e1 e2 env)
  else none

/-- Outcome of one query-handler invocation, with control-flow instrumentation
for the claims: whether `rag_llm_client.ainvoke` was called, and whether the
`rag_llm_client is None` branch was taken. -/
structure QueryOutcome where
  result : HandlerResult RagQueryResponse
  llmInvoked : Bool
  unavailableBranch : Bool

/-- Handler `POST /api/v1/rag/query` (`rag.py`, lines 26-156).  The outer
`try` spans retrieval, answer generation and evaluation; of these only the
retrieval call raises in the model (the LLM call and each metric computation
are guarded by their own inner `try`, and the remaining statements are plain
constructions), so the `except` at line 144 — HTTP 500 — fires exactly on a
retrieval failure. -/
def query_rag_system (c : Option LLMClient) (e1 : Option RagasLLM)
    (e2 : Option RagasEmbeddings) (req : RagQueryRequest) (env : QueryEnv) :
    QueryOutcome :=
  match env.retrieval with
  | .error e =>
      ⟨.httpError 500 ("Error during RAG query processing: " ++ e), false, false⟩
  | .ok docs =>
      let sources := docs.map mkSource
      let aiu :=
        if sources.isEmpty then (noDocsAnswer req.query, false, false)
        else generateAnswer c env.llmResult req.query
      ⟨.ok ⟨aiu.1, sources, evalScores e1 e2 req.reference_answer env⟩,
        aiu.2.1, aiu.2.2⟩

/-- Contract of the nearest-neighbor retrieval of the external vector store,
modelled from the spec: `similarity_search_with_score(query, k)` against a
store holding `n` chunks returns `min k n` (chunk, distance-score) pairs in
non-decreasing score order.  The store itself is a third-party collaborator
outside this repository. -/
def retrievalContract (n k : Nat) (docs : List RetrievedChunk) : Prop :=
  docs.length = min k n ∧ List.Pairwise (· ≤ ·) (docs.map RetrievedChunk.score)

instance (n k : Nat) (docs : List RetrievedChunk) :
    Decidable (retrievalContract n k docs) := by
  unfold retrievalContract
  infer_instance

/-- Helper: the result of the query handler for a successful retrieval, spelled out. -/
theorem query_result_ok (c : Option LLMClient) (e1 : Option RagasLLM)
    (e2 : Option RagasEmbeddings) (req : RagQueryRequest) (env : QueryEnv)
    (docs : List RetrievedChunk) (hret : env.retrieval = .ok docs) :
    (query_rag_system c e1 e2 req env).result =
      .ok ⟨(if (docs.map mkSource).isEmpty then (noDocsAnswer req.query, false, false)
            else generateAnswer c env.llmResult req.query).1,
           docs.map mkSource,
           evalScores e1 e2 req.reference_answer env⟩ := by
  simp only [query_rag_system, hret]

/-- Claim C1 (code bug).  The claim says the detail and deletion handlers
respond 404 for a document id with no chunks; in the code the
`HTTPException(404)` raised inside the `try` is swallowed by the blanket
`except Exception` of the same handler and re-raised as a 500 whose detail
wraps `str(e)`, so both endpoints actually respond 500.  Failing input: id
"missing-doc" against a store holding a single chunk of a different
document. -/
theorem C1_unknown_id_yields_500_not_404 :
    get_document_details [⟨"c1", "other-doc", "a.txt", "text"⟩] "missing-doc" =
      .httpError 500 ("Error retrieving document details: " ++
        "404: Document with source_document_id \x27missing-doc\x27 not found or has no chunks.")
    ∧ delete_document [⟨"c1", "other-doc", "a.txt", "text"⟩] "missing-doc" =
      (.httpError 500 ("Error deleting document: " ++
        "404: Document with source_document_id \x27missing-doc\x27 not found for deletion."),
       [⟨"c1", "other-doc", "a.txt", "text"⟩]) := by
  exact ⟨rfl, rfl⟩

/-- Claim C4 (code bug).  The claim (and the own
"# Ensure temp file is deleted" cleanup comment of the source) says the per-iteration
temporary file is always gone when the iteration completes; but when
`await file.read()` (or the write) raises, the exception fires after
`NamedTemporaryFile` created the file and before `tmp_file_path = tmp_file.name`
ran, so the `finally` guard `tmp_file_path in locals()` never sees the path
of this iteration and the file is left on disk (`tempCreated = true`,
`tempRemoved = false`).  The second conjunct contrasts this with a later
exception (`loader.load()`), where the assigned path lets `finally` clean
up. -/
theorem C4_temp_file_leak_on_read_exception :
    processOne "doc-1" ⟨"notes.txt", "text/plain"⟩ (.readRaises "client disconnected") =
      ⟨some ⟨"doc-1", "notes.txt", "error: client disconnected"⟩, true, false⟩
    ∧ processOne "doc-1" ⟨"notes.txt", "text/plain"⟩ (.loadRaises "parse failure") =
      ⟨some ⟨"doc-1", "notes.txt", "error: parse failure"⟩, true, true⟩ := by
  exact ⟨rfl, rfl⟩

/-- Helper: a file with a non-empty filename always gets a status record whose
id and filename are its own. -/
theorem processOne_record_some (docId : String) (f : UploadFileModel)
    (b : FileBehavior) (h : f.filename ≠ "") :
    ∃ r, (processOne docId f b).record = some r ∧ r.id = docId ∧
      r.filename = f.filename := by
  have hb : (f.filename == "") = false := by simpa using h
  cases b with
  | readRaises msg =>
      exact ⟨⟨docId, f.filename, "error: " ++ msg⟩, by simp [processOne, hb], rfl, rfl⟩
  | loadRaises msg =>
      by_cases hs : isSupported f = true
      · exact ⟨⟨docId, f.filename, "error: " ++ msg⟩,
          by simp [processOne, hb, hs], rfl, rfl⟩
      · exact ⟨⟨docId, f.filename, "error: unsupported file type " ++ f.content_type⟩,
          by simp [processOne, hb, hs], rfl, rfl⟩
  | loaded chunks addError =>
      by_cases hs : isSupported f = true
      · by_cases hc : chunks.isEmpty = true
        · exact ⟨⟨docId, f.filename, "empty_or_unparsable"⟩,
            by simp [processOne, hb, hs, hc], rfl, rfl⟩
        · cases addError with
          | none =>
              exact ⟨⟨docId, f.filename, "processed"⟩,
                by simp [processOne, hb, hs, hc], rfl, rfl⟩
          | some m =>
              exact ⟨⟨docId, f.filename, "error: " ++ m⟩,
                by simp [processOne, hb, hs, hc], rfl, rfl⟩
      · exact ⟨⟨docId, f.filename, "error: unsupported file type " ++ f.content_type⟩,
          by simp [processOne, hb, hs], rfl, rfl⟩

/-- Helper: a file with an empty filename is skipped without a record. -/
theorem processOne_record_none (docId : String) (f : UploadFileModel)
    (b : FileBehavior) (h : f.filename = "") :
    (processOne docId f b).record = none := by
  simp [processOne, h]

/-- Helper: when every filename is non-empty, the upload loop produces exactly
one record per file, and the j-th record is the record of the own iteration
of the j-th file. -/
theorem uploadLoop_spec (uuids : Nat → String) :
    ∀ (files : List (UploadFileModel × FileBehavior)) (i : Nat),
      (∀ p ∈ files, p.1.filename ≠ "") →
      (uploadLoop uuids i files).length = files.length ∧
      ∀ j f b, files[j]? = some (f, b) →
        (uploadLoop uuids i files)[j]? = (processOne (uuids (i + j)) f b).record := by
  intro files
  induction files with
  | nil =>
      intro i _
      refine ⟨rfl, ?_⟩
      intro j f b hj
      simp at hj
  | cons p rest ih =>
      intro i hfn
      obtain ⟨f0, b0⟩ := p
      have h0 : f0.filename ≠ "" := hfn (f0, b0) (List.mem_cons_self _ _)
      obtain ⟨r, hr, _, _⟩ := processOne_record_some (uuids i) f0 b0 h0
      have hrest := ih (i + 1) (fun q hq => hfn q (List.mem_cons_of_mem _ hq))
      constructor
      · simp [uploadLoop, hr, hrest.1]
      · intro j f b hj
        cases j with
        | zero =>
            simp only [List.getElem?_cons_zero, Option.some.injEq] at hj
            cases hj
            simp [uploadLoop, hr]
        | succ j =>
            have hstep := hrest.2 j f b (by simpa using hj)
            have harith : i + (j + 1) = (i + 1) + j := by omega
            simp only [uploadLoop, hr, List.getElem?_cons_succ, harith]
            exact hstep

/-- Helper: the upload loop yields no records exactly when every file has an
empty filename. -/
theorem uploadLoop_eq_nil_iff (uuids : Nat → String) :
    ∀ (files : List (UploadFileModel × FileBehavior)) (i : Nat),
      uploadLoop uuids i files = [] ↔ ∀ p ∈ files, p.1.filename = "" := by
  intro files
  induction files with
  | nil => intro i; simp [uploadLoop]
  | cons p rest ih =>
      intro i
      obtain ⟨f0, b0⟩ := p
      by_cases h0 : f0.filename = ""
      · have hrec := processOne_record_none (uuids i) f0 b0 h0
        simp [uploadLoop, hrec, ih (i + 1), h0]
      · obtain ⟨r, hr, _, _⟩ := processOne_record_some (uuids i) f0 b0 h0
        simp [uploadLoop, hr, h0]

/-- Helper: for a non-empty batch of files with non-empty filenames the
upload handler returns the record list of the loop, of the same length as the
input, with the j-th record equal to the own iteration record of the j-th file. -/
theorem upload_documents_ok (files : List (UploadFileModel × FileBehavior))
    (uuids : Nat → String) (hne : files ≠ [])
    (hfn : ∀ p ∈ files, p.1.filename ≠ "") :
    upload_documents files uuids = .ok (uploadLoop uuids 0 files) ∧
    (uploadLoop uuids 0 files).length = files.length ∧
    (∀ (j : Nat) (f : UploadFileModel) (b : FileBehavior), files[j]? = some (f, b) →
      (uploadLoop uuids 0 files)[j]? = (processOne (uuids j) f b).record) := by
  obtain ⟨hlen, hrec⟩ := uploadLoop_spec uuids files 0 hfn
  have hje : ∀ (j : Nat) (f : UploadFileModel) (b : FileBehavior),
      files[j]? = some (f, b) →
      (uploadLoop uuids 0 files)[j]? = (processOne (uuids j) f b).record := by
    intro j f b hj
    have := hrec j f b hj
    simpa using this
  have hfe : files.isEmpty = false := by
    cases files with
    | nil => exact absurd rfl hne
    | cons p rest => rfl
  have hlne : (uploadLoop uuids 0 files).isEmpty = false := by
    cases hl : uploadLoop uuids 0 files with
    | nil =>
        rw [hl] at hlen
        cases files with
        | nil => exact absurd rfl hne
        | cons p rest => simp at hlen
    | cons r rest => rfl
  refine ⟨?_, hlen, hje⟩
  simp only [upload_documents, hfe, hlne]
  rfl

/-- Claim C2 (confirmed).  For any non-empty batch (of files the handler
actually processes, i.e. with non-empty filenames), the handler returns a
normal record list — no per-file exception escapes or aborts it; the record
of every file is exactly the outcome of the own iteration of that file, independent of
the other files; and a file whose read raises gets an
`"error: ..."` status record (the other raising stages are covered by the
per-iteration equation). -/
theorem C2_per_file_errors_isolated (files : List (UploadFileModel × FileBehavior))
    (uuids : Nat → String) (hne : files ≠ [])
    (hfn : ∀ p ∈ files, p.1.filename ≠ "") :
    ∃ resps : List DocumentCreateResponse,
      upload_documents files uuids = .ok resps ∧
      resps.length = files.length ∧
      (∀ (j : Nat) (f : UploadFileModel) (b : FileBehavior), files[j]? = some (f, b) →
        resps[j]? = (processOne (uuids j) f b).record) ∧
      (∀ (j : Nat) (f : UploadFileModel) (msg : String),
        files[j]? = some (f, FileBehavior.readRaises msg) →
        resps[j]? = some ⟨uuids j, f.filename, "error: " ++ msg⟩) := by
  obtain ⟨hok, hlen, hje⟩ := upload_documents_ok files uuids hne hfn
  refine ⟨uploadLoop uuids 0 files, hok, hlen, hje, ?_⟩
  intro j f msg hj
  have hmem : (f, FileBehavior.readRaises msg) ∈ files := by
    have := List.getElem?_eq_some_iff.mp hj
    obtain ⟨hlt, hg⟩ := this
    exact hg ▸ List.getElem_mem hlt
  have hf0 : f.filename ≠ "" := hfn _ hmem
  have hb : (f.filename == "") = false := by simpa using hf0
  have := hje j f (FileBehavior.readRaises msg) hj
  rw [this]
  simp [processOne, hb]

/-- Witness for C2: a concrete three-file batch whose middle file raises while
being read; the batch still yields three records and the middle one carries
the error status. -/
theorem C2_per_file_errors_isolated_witness :
    ∃ resps : List DocumentCreateResponse,
      upload_documents
        [(⟨"a.txt", "text/plain"⟩, .loaded ["alpha"] none),
         (⟨"b.txt", "text/plain"⟩, .readRaises "boom"),
         (⟨"c.pdf", "application/pdf"⟩, .loaded [] none)]
        (fun n => "u" ++ toString n) = .ok resps ∧
      resps.length = 3 ∧
      (∀ (j : Nat) (f : UploadFileModel) (b : FileBehavior),
        ([(⟨"a.txt", "text/plain"⟩, .loaded ["alpha"] none),
          (⟨"b.txt", "text/plain"⟩, .readRaises "boom"),
          (⟨"c.pdf", "application/pdf"⟩, .loaded [] none)] :
            List (UploadFileModel × FileBehavior))[j]? = some (f, b) →
        resps[j]? = (processOne ("u" ++ toString j) f b).record) ∧
      (∀ (j : Nat) (f : UploadFileModel) (msg : String),
        ([(⟨"a.txt", "text/plain"⟩, .loaded ["alpha"] none),
          (⟨"b.txt", "text/plain"⟩, .readRaises "boom"),
          (⟨"c.pdf", "application/pdf"⟩, .loaded [] none)] :
            List (UploadFileModel × FileBehavior))[j]? = some (f, FileBehavior.readRaises msg) →
        resps[j]? = some ⟨"u" ++ toString j, f.filename, "error: " ++ msg⟩) := by
  exact C2_per_file_errors_isolated _ _ (by decide) (by decide)

/-- Counterexample to claim C7 as stated: a non-empty upload list consisting
of one file whose (client-supplied) filename is the empty string.  The loop
skips it via `if not file.filename: continue` without appending a status
record, so the handler hits the line 84 safeguard and rejects the whole
request with 400 even though the input list is non-empty — contradicting
both "one status record per file in the input list" and "400 if and only if
the input file list is empty". -/
theorem C7_empty_filename_counterexample :
    ([(⟨"", "text/plain"⟩, FileBehavior.loaded ["some text"] none)] :
        List (UploadFileModel × FileBehavior)) ≠ [] ∧
    upload_documents [(⟨"", "text/plain"⟩, FileBehavior.loaded ["some text"] none)]
        (fun n => "u" ++ toString n) =
      .httpError 400 "No files were processed." := by
  exact ⟨by decide, rfl⟩

/-- Claim C7 (corrected).  Amended: the handler returns one status record
(id, filename, status) per file *with a non-empty filename*, responding 201,
and rejects the request with 400 exactly when every file has an empty
filename — in particular when the list is empty. -/
theorem C7_upload_record_per_file (files : List (UploadFileModel × FileBehavior))
    (uuids : Nat → String) :
    ((∃ msg, upload_documents files uuids = .httpError 400 msg) ↔
      ∀ p ∈ files, p.1.filename = "") ∧
    (files ≠ [] → (∀ p ∈ files, p.1.filename ≠ "") →
      ∃ resps : List DocumentCreateResponse,
        upload_documents files uuids = .ok resps ∧
        uploadHttpStatus (upload_documents files uuids) = 201 ∧
        resps.length = files.length ∧
        ∀ (j : Nat) (f : UploadFileModel) (b : FileBehavior),
          files[j]? = some (f, b) →
          ∃ rec : DocumentCreateResponse, resps[j]? = some rec ∧
            rec.id = uuids j ∧ rec.filename = f.filename) := by
  constructor
  · cases files with
    | nil =>
        constructor
        · intro _ p hp
          simp at hp
        · intro _
          exact ⟨"No files provided.", rfl⟩
    | cons p0 rest =>
        constructor
        · intro ⟨msg, hmsg⟩
          rw [← uploadLoop_eq_nil_iff uuids (p0 :: rest) 0]
          by_contra hnn
          have hlne : (uploadLoop uuids 0 (p0 :: rest)).isEmpty = false := by
            cases hl : uploadLoop uuids 0 (p0 :: rest) with
            | nil => exact absurd hl hnn
            | cons r rs => rfl
          have hfe : (p0 :: rest : List (UploadFileModel × FileBehavior)).isEmpty = false := rfl
          simp only [upload_documents, hfe, hlne] at hmsg
          exact HandlerResult.noConfusion hmsg
        · intro hall
          have hnil : uploadLoop uuids 0 (p0 :: rest) = [] :=
            (uploadLoop_eq_nil_iff uuids (p0 :: rest) 0).mpr hall
          refine ⟨"No files were processed.", ?_⟩
          have hle : (uploadLoop uuids 0 (p0 :: rest)).isEmpty = true := by
            rw [hnil]; rfl
          simp only [upload_documents, hle]
          rfl
  · intro hne hfn
    obtain ⟨hok, hlen, hje⟩ := upload_documents_ok files uuids hne hfn
    refine ⟨uploadLoop uuids 0 files, hok, ?_, hlen, ?_⟩
    · rw [hok]; rfl
    · intro j f b hj
      have hmem : (f, b) ∈ files := by
        obtain ⟨hlt, hg⟩ := List.getElem?_eq_some_iff.mp hj
        exact hg ▸ List.getElem_mem hlt
      obtain ⟨rec, hrec, hid, hfname⟩ :=
        processOne_record_some (uuids j) f b (hfn _ hmem)
      exact ⟨rec, by rw [hje j f b hj, hrec], hid, hfname⟩

/-- Witness for C7: a concrete two-file batch (one processable text file, one
unsupported binary) gets a 201 response with exactly two records carrying the
ids and names of the files. -/
theorem C7_upload_record_per_file_witness :
    ∃ resps : List DocumentCreateResponse,
      upload_documents
          [(⟨"a.txt", "text/plain"⟩, .loaded ["alpha"] none),
           (⟨"b.bin", "application/octet-stream"⟩, .loaded [] none)]
          (fun n => "u" ++ toString n) = .ok resps ∧
      uploadHttpStatus (upload_documents
          [(⟨"a.txt", "text/plain"⟩, .loaded ["alpha"] none),
           (⟨"b.bin", "application/octet-stream"⟩, .loaded [] none)]
          (fun n => "u" ++ toString n)) = 201 ∧
      resps.length = 2 ∧
      ∀ (j : Nat) (f : UploadFileModel) (b : FileBehavior),
        ([(⟨"a.txt", "text/plain"⟩, .loaded ["alpha"] none),
          (⟨"b.bin", "application/octet-stream"⟩, .loaded [] none)] :
            List (UploadFileModel × FileBehavior))[j]? = some (f, b) →
        ∃ rec : DocumentCreateResponse, resps[j]? = some rec ∧
          rec.id = "u" ++ toString j ∧ rec.filename = f.filename := by
  exact (C7_upload_record_per_file _ _).2 (by decide) (by decide)

/-- Helper: under distinct chunk ids, the id of a chunk is a member of the ids
fetched for a document exactly when the chunk itself matches that document. -/
theorem contains_fetched_ids_iff (store : List StoredChunk) (document_id : String)
    (hnodup : (store.map StoredChunk.id).Nodup) (x : StoredChunk) (hx : x ∈ store) :
    ((store.filter (chunkMatches document_id)).map StoredChunk.id).contains x.id =
      chunkMatches document_id x := by
  by_cases hm : chunkMatches document_id x = true
  · rw [hm]
    have : x.id ∈ (store.filter (chunkMatches document_id)).map StoredChunk.id :=
      List.mem_map_of_mem _ (List.mem_filter.mpr ⟨hx, hm⟩)
    exact List.elem_iff.mpr this
  · have hmf : chunkMatches document_id x = false := by
      cases h : chunkMatches document_id x with
      | false => rfl
      | true => exact absurd h hm
    rw [hmf]
    cases hc : ((store.filter (chunkMatches document_id)).map StoredChunk.id).contains x.id with
    | false => rfl
    | true =>
        exfalso
        have hmemid : x.id ∈ (store.filter (chunkMatches document_id)).map StoredChunk.id :=
          List.elem_iff.mp hc
        obtain ⟨y, hy, hyid⟩ := List.mem_map.mp hmemid
        obtain ⟨hys, hym⟩ := List.mem_filter.mp hy
        have hxy : y = x := List.inj_on_of_nodup_map hnodup hys hx hyid
        rw [hxy] at hym
        exact hm hym

/-- Claim C5 (confirmed).  Deleting a document present in a store with
distinct chunk ids leaves exactly the chunks of the other documents, in their
original order: the resulting store of the handler is the original filtered to the
non-matching chunks, so no chunk with the deleted id survives and every other
chunk is untouched. -/
theorem C5_delete_exactly_matching_chunks (store : List StoredChunk)
    (document_id : String) (hnodup : (store.map StoredChunk.id).Nodup)
    (hpresent : ∃ c ∈ store, c.source_document_id = document_id) :
    ∃ msg, delete_document store document_id =
      (.ok msg, store.filter (fun c => !(chunkMatches document_id c))) := by
  obtain ⟨c, hc, hcd⟩ := hpresent
  have hcm : chunkMatches document_id c = true := by
    simp [chunkMatches, hcd]
  have hmem : c.id ∈ (store.filter (chunkMatches document_id)).map StoredChunk.id :=
    List.mem_map_of_mem _ (List.mem_filter.mpr ⟨hc, hcm⟩)
  have hne : ((store.filter (chunkMatches document_id)).map StoredChunk.id).isEmpty
      = false := by
    cases hl : (store.filter (chunkMatches document_id)).map StoredChunk.id with
    | nil => rw [hl] at hmem; simp at hmem
    | cons a l => rfl
  have hfeq : store.filter
        (fun c => !(((store.filter (chunkMatches document_id)).map
          StoredChunk.id).contains c.id)) =
      store.filter (fun c => !(chunkMatches document_id c)) := by
    apply List.filter_congr
    intro x hx
    rw [contains_fetched_ids_iff store document_id hnodup x hx]
  refine ⟨"Document " ++ document_id ++ " and its " ++
    toString ((store.filter (chunkMatches document_id)).map StoredChunk.id).length ++
    " chunks deleted successfully.", ?_⟩
  have hbody : delete_document_body store document_id =
      .ok ("Document " ++ document_id ++ " and its " ++
        toString ((store.filter (chunkMatches document_id)).map StoredChunk.id).length ++
        " chunks deleted successfully.",
        store.filter (fun c => !(((store.filter (chunkMatches document_id)).map
          StoredChunk.id).contains c.id))) := by
    simp [delete_document_body, hne]
  simp only [delete_document, hbody]
  rw [hfeq]

/-- Witness for C5: deleting "d1" from a concrete three-chunk store removes
its two chunks and leaves the single "d2" chunk untouched. -/
theorem C5_delete_exactly_matching_chunks_witness :
    ∃ msg, delete_document
        [⟨"c1", "d1", "a.txt", "t1"⟩, ⟨"c2", "d2", "b.txt", "t2"⟩,
         ⟨"c3", "d1", "a.txt", "t3"⟩] "d1" =
      (.ok msg, [⟨"c2", "d2", "b.txt", "t2"⟩]) := by
  obtain ⟨msg, hm⟩ := C5_delete_exactly_matching_chunks
    [⟨"c1", "d1", "a.txt", "t1"⟩, ⟨"c2", "d2", "b.txt", "t2"⟩,
     ⟨"c3", "d1", "a.txt", "t3"⟩] "d1" (by decide)
    ⟨⟨"c1", "d1", "a.txt", "t1"⟩, by decide, rfl⟩
  exact ⟨msg, hm⟩

/-- Claim C6 (confirmed).  When retrieval returns zero chunks the handler
answers with the templated no-relevant-documents string (which contains the
query text between two fixed literals), the sources list is empty, and the
language model is never invoked. -/
theorem C6_no_docs_templated_answer (c : Option LLMClient) (e1 : Option RagasLLM)
    (e2 : Option RagasEmbeddings) (req : RagQueryRequest) (env : QueryEnv)
    (h : env.retrieval = .ok []) :
    (query_rag_system c e1 e2 req env).llmInvoked = false ∧
    ∃ resp : RagQueryResponse,
      (query_rag_system c e1 e2 req env).result = .ok resp ∧
      resp.sources = [] ∧
      resp.answer = noDocsAnswer req.query ∧
      ∃ pre post, resp.answer = pre ++ req.query ++ post := by
  have hq : query_rag_system c e1 e2 req env =
      ⟨.ok ⟨noDocsAnswer req.query, [], evalScores e1 e2 req.reference_answer env⟩,
        false, false⟩ := by
    simp [query_rag_system, h]
  refine ⟨by rw [hq], ⟨noDocsAnswer req.query, [],
    evalScores e1 e2 req.reference_answer env⟩, by rw [hq], rfl, rfl, ?_⟩
  exact ⟨"I could not find any relevant documents for your query: \x27",
    "\x27. Please try rephrasing or uploading more relevant documents.", rfl⟩

/-- Witness for C6: a concrete query against an empty retrieval result. -/
theorem C6_no_docs_templated_answer_witness :
    (query_rag_system (some (.fakeListLLM [])) none none ⟨"what is X", 5, none⟩
      ⟨.ok [], .ok "unused", .ok 0, .ok 0, .ok 0⟩).llmInvoked = false ∧
    ∃ resp : RagQueryResponse,
      (query_rag_system (some (.fakeListLLM [])) none none ⟨"what is X", 5, none⟩
        ⟨.ok [], .ok "unused", .ok 0, .ok 0, .ok 0⟩).result = .ok resp ∧
      resp.sources = [] ∧
      resp.answer = noDocsAnswer "what is X" ∧
      ∃ pre post, resp.answer = pre ++ "what is X" ++ post := by
  exact C6_no_docs_templated_answer _ _ _ _ _ rfl

/-- Helper: the templated no-documents answer is never the empty string. -/
theorem noDocsAnswer_ne_empty (q : String) : noDocsAnswer q ≠ "" := by
  intro h
  have hlen := congrArg String.length h
  rw [noDocsAnswer, String.length_append, String.length_append] at hlen
  have h1 : 0 <
      ("I could not find any relevant documents for your query: \x27" : String).length := by
    decide
  have h2 : ("" : String).length = 0 := rfl
  omega

/-- Helper: the templated model-error answer is never the empty string. -/
theorem llmErrorAnswer_ne_empty (q : String) : llmErrorAnswer q ≠ "" := by
  intro h
  have hlen := congrArg String.length h
  rw [llmErrorAnswer, String.length_append, String.length_append] at hlen
  have h1 : 0 <
      ("An unexpected error occurred while generating the answer. (Query: " :
        String).length := by
    decide
  have h2 : ("" : String).length = 0 := rfl
  omega

/-- Counterexample to claim C3 as stated: retrieval succeeds (one chunk) and
the model invocation also succeeds but returns the empty string; after
`.strip()` the endpoint returns 200 with an *empty* `answer` field, refuting
"non-empty answer field whenever the nearest-neighbor retrieval step
succeeds". -/
theorem C3_blank_llm_output_counterexample :
    (query_rag_system (some (.fakeListLLM [])) none none ⟨"what is X", 5, none⟩
        ⟨.ok [⟨"d1", "a.txt", "some text", 1⟩], .ok "", .ok 0, .ok 0, .ok 0⟩).result =
      .ok ⟨"", [⟨"d1", "a.txt", "some text", 1⟩], none⟩ := by
  rfl

/-- Claim C3 (corrected).  Amended: whenever retrieval succeeds the endpoint
returns 200 with an answer field — non-empty except in the single case that
the model invocation succeeds with content that strips to the empty string;
any model-invocation failure is replaced by the templated error answer; and
only a retrieval exception surfaces as a 500. -/
theorem C3_degraded_answers (c : Option LLMClient) (e1 : Option RagasLLM)
    (e2 : Option RagasEmbeddings) (req : RagQueryRequest) (env : QueryEnv) :
    (∀ e, env.retrieval = .error e →
      (query_rag_system c e1 e2 req env).result =
        .httpError 500 ("Error during RAG query processing: " ++ e)) ∧
    (∀ docs : List RetrievedChunk, env.retrieval = .ok docs →
      ∃ resp : RagQueryResponse,
        (query_rag_system c e1 e2 req env).result = .ok resp ∧
        (docs = [] → resp.answer = noDocsAnswer req.query) ∧
        (docs ≠ [] → c = none → resp.answer = unavailableAnswer) ∧
        (docs ≠ [] → ∀ cl, c = some cl → ∀ m, env.llmResult = .error m →
          resp.answer = llmErrorAnswer req.query) ∧
        (resp.answer = "" →
          ∃ content, env.llmResult = .ok content ∧ pyStrip content = "" ∧
            docs ≠ [])) := by
  constructor
  · intro e he
    simp [query_rag_system, he]
  · intro docs hd
    refine ⟨⟨(if (docs.map mkSource).isEmpty then (noDocsAnswer req.query, false, false)
        else generateAnswer c env.llmResult req.query).1, docs.map mkSource,
        evalScores e1 e2 req.reference_answer env⟩,
      query_result_ok c e1 e2 req env docs hd, ?_, ?_, ?_, ?_⟩
    · intro hnil
      subst hnil
      rfl
    · intro hne hc
      subst hc
      cases docs with
      | nil => exact absurd rfl hne
      | cons d ds => simp [generateAnswer]
    · intro hne cl hcl m hm
      subst hcl
      cases docs with
      | nil => exact absurd rfl hne
      | cons d ds => simp [generateAnswer, hm]
    · intro hzero
      cases docs with
      | nil =>
          exfalso
          exact noDocsAnswer_ne_empty req.query (by simpa using hzero)
      | cons d ds =>
          cases c with
          | none =>
              exfalso
              simp [generateAnswer] at hzero
              exact absurd hzero (by decide)
          | some cl =>
              cases hllm : env.llmResult with
              | error m =>
                  exfalso
                  simp [generateAnswer, hllm] at hzero
                  exact llmErrorAnswer_ne_empty req.query hzero
              | ok content =>
                  refine ⟨content, rfl, ?_, by simp⟩
                  simpa [generateAnswer, hllm] using hzero

/-- Witness for C3: a concrete query whose retrieval succeeds with one chunk
and whose model invocation raises; the endpoint still answers 200 with the
templated error answer. -/
theorem C3_degraded_answers_witness :
    ∃ resp : RagQueryResponse,
      (query_rag_system (some (.fakeListLLM [])) none none ⟨"what is X", 5, none⟩
        ⟨.ok [⟨"d1", "a.txt", "some text", 1⟩], .error "rate limited", .ok 0, .ok 0,
          .ok 0⟩).result = .ok resp ∧
      ([(⟨"d1", "a.txt", "some text", 1⟩ : RetrievedChunk)] = [] →
        resp.answer = noDocsAnswer "what is X") ∧
      ([(⟨"d1", "a.txt", "some text", 1⟩ : RetrievedChunk)] ≠ [] →
        (some (LLMClient.fakeListLLM []) : Option LLMClient) = none →
        resp.answer = unavailableAnswer) ∧
      ([(⟨"d1", "a.txt", "some text", 1⟩ : RetrievedChunk)] ≠ [] →
        ∀ cl, (some (LLMClient.fakeListLLM []) : Option LLMClient) = some cl →
        ∀ m, (Except.error "rate limited" : Except String String) = .error m →
        resp.answer = llmErrorAnswer "what is X") ∧
      (resp.answer = "" →
        ∃ content, (Except.error "rate limited" : Except String String) = .ok content ∧
          pyStrip content = "" ∧
          [(⟨"d1", "a.txt", "some text", 1⟩ : RetrievedChunk)] ≠ []) := by
  exact (C3_degraded_answers (some (.fakeListLLM [])) none none ⟨"what is X", 5, none⟩
    ⟨.ok [⟨"d1", "a.txt", "some text", 1⟩], .error "rate limited", .ok 0, .ok 0,
      .ok 0⟩).2 [⟨"d1", "a.txt", "some text", 1⟩] rfl

/-- Claim C8 (confirmed).  `top_k` validation: omitted defaults to 5, a
supplied integer is accepted exactly when it lies in [1, 20].  Against any
retrieval result satisfying the contract of the external store (at most `k`
pairs, exactly `min k n` for a store of `n` chunks, sorted by non-decreasing
score), the sources list of the endpoint has at most `k` entries, exactly `k`
when the store holds at least `k` chunks, and is ordered by non-decreasing
distance score. -/
theorem C8_top_k_sources (c : Option LLMClient) (e1 : Option RagasLLM)
    (e2 : Option RagasEmbeddings) (req : RagQueryRequest) (env : QueryEnv)
    (k n : Nat) (docs : List RetrievedChunk) (hk : req.top_k = k)
    (hret : env.retrieval = .ok docs) (hcontract : retrievalContract n k docs) :
    parseTopK none = .ok 5 ∧
    (∀ v : Int, (∃ m, parseTopK (some v) = .ok m) ↔ (1 ≤ v ∧ v ≤ 20)) ∧
    ∃ resp : RagQueryResponse,
      (query_rag_system c e1 e2 req env).result = .ok resp ∧
      resp.sources.length ≤ k ∧
      (k ≤ n → resp.sources.length = k) ∧
      List.Pairwise (· ≤ ·) (resp.sources.map SourceDocument.score) := by
  obtain ⟨hlen, hsorted⟩ := hcontract
  refine ⟨rfl, ?_, ?_⟩
  · intro v
    constructor
    · rintro ⟨m, hm⟩
      by_cases hcond : 1 ≤ v ∧ v ≤ 20
      · exact hcond
      · simp [parseTopK, hcond] at hm
    · intro hcond
      exact ⟨v.toNat, by simp [parseTopK, hcond]⟩
  · refine ⟨⟨(if (docs.map mkSource).isEmpty then (noDocsAnswer req.query, false, false)
        else generateAnswer c env.llmResult req.query).1, docs.map mkSource,
        evalScores e1 e2 req.reference_answer env⟩,
      query_result_ok c e1 e2 req env docs hret, ?_, ?_, ?_⟩
    · show (docs.map mkSource).length ≤ k
      rw [List.length_map, hlen]
      exact Nat.min_le_left k n
    · intro hkn
      show (docs.map mkSource).length = k
      rw [List.length_map, hlen]
      exact Nat.min_eq_left hkn
    · show List.Pairwise (· ≤ ·) ((docs.map mkSource).map SourceDocument.score)
      have hmm : (docs.map mkSource).map SourceDocument.score =
          docs.map RetrievedChunk.score := by
        rw [List.map_map]
        rfl
      rw [hmm]
      exact hsorted

/-- Witness for C8: `top_k = 2` against a 3-chunk store whose retrieval
returns 2 sorted pairs. -/
theorem C8_top_k_sources_witness :
    parseTopK none = .ok 5 ∧
    (∀ v : Int, (∃ m, parseTopK (some v) = .ok m) ↔ (1 ≤ v ∧ v ≤ 20)) ∧
    ∃ resp : RagQueryResponse,
      (query_rag_system none none none ⟨"q", 2, none⟩
        ⟨.ok [⟨"d1", "a.txt", "t1", 1⟩, ⟨"d2", "b.txt", "t2", 2⟩],
          .ok "a", .ok 0, .ok 0, .ok 0⟩).result = .ok resp ∧
      resp.sources.length ≤ 2 ∧
      (2 ≤ 3 → resp.sources.length = 2) ∧
      List.Pairwise (· ≤ ·) (resp.sources.map SourceDocument.score) := by
  exact C8_top_k_sources none none none ⟨"q", 2, none⟩
    ⟨.ok [⟨"d1", "a.txt", "t1", 1⟩, ⟨"d2", "b.txt", "t2", 2⟩],
      .ok "a", .ok 0, .ok 0, .ok 0⟩ 2 3
    [⟨"d1", "a.txt", "t1", 1⟩, ⟨"d2", "b.txt", "t2", 2⟩] rfl rfl (by decide)

/-- Counterexample to claim C9 as stated: the caller *supplies* a reference
answer — the empty string — and both evaluator collaborators are available
with every metric computable, yet `if request.reference_answer:` is falsy on
the empty string, so the whole evaluation block is skipped and the response
carries no evaluation scores at all. -/
theorem C9_empty_reference_counterexample :
    (query_rag_system (some (.fakeListLLM [])) (some (.wrapper (.fakeListLLM [])))
        (some (.fakeWrapped 768)) ⟨"q", 5, some ""⟩
        ⟨.ok [⟨"d1", "a.txt", "text", 1⟩], .ok "an answer", .ok 1, .ok 1, .ok 1⟩).result =
      .ok ⟨"an answer", [⟨"d1", "a.txt", "text", 1⟩], none⟩ := by
  rfl

/-- Claim C9 (corrected).  Amended: an omitted — or empty, since Python
truthiness treats `""` like `None` — reference answer leaves
`evaluation_scores` absent; a non-empty reference answer yields a score set
in which each metric is null rather than failing the request when its
prerequisite collaborator is unavailable or its computation raises (the
required-field checks always pass here, all core sample fields being
strings), and at least one score is populated when both evaluator
collaborators are available and at least one metric computation succeeds. -/
theorem C9_evaluation_scores (c : Option LLMClient) (e1 : Option RagasLLM)
    (e2 : Option RagasEmbeddings) (req : RagQueryRequest) (env : QueryEnv)
    (docs : List RetrievedChunk) (hret : env.retrieval = .ok docs) :
    ((req.reference_answer = none ∨ req.reference_answer = some "") →
      ∃ resp : RagQueryResponse,
        (query_rag_system c e1 e2 req env).result = .ok resp ∧
        resp.evaluation_scores = none) ∧
    (∀ r, req.reference_answer = some r → r ≠ "" →
      ∃ resp : RagQueryResponse, ∃ ms : MetricScore,
        (query_rag_system c e1 e2 req env).result = .ok resp ∧
        resp.evaluation_scores = some ms ∧
        ((e1 = none ∨ e2 = none) → ms.response_relevancy = none) ∧
        (∀ m, env.relevancyResult = .error m → ms.response_relevancy = none) ∧
        (∀ m, env.bleuResult = .error m → ms.bleu_score = none) ∧
        (∀ m, env.rougeResult = .error m → ms.rouge_score = none) ∧
        (e1.isSome = true → e2.isSome = true →
          (env.relevancyResult.isOk = true ∨ env.bleuResult.isOk = true ∨
            env.rougeResult.isOk = true) →
          (ms.response_relevancy.isSome = true ∨ ms.bleu_score.isSome = true ∨
            ms.rouge_score.isSome = true))) := by
  constructor
  · intro hr
    refine ⟨⟨(if (docs.map mkSource).isEmpty then (noDocsAnswer req.query, false, false)
        else generateAnswer c env.llmResult req.query).1, docs.map mkSource,
        evalScores e1 e2 req.reference_answer env⟩,
      query_result_ok c e1 e2 req env docs hret, ?_⟩
    show evalScores e1 e2 req.reference_answer env = none
    rcases hr with h | h <;> rw [h] <;> rfl
  · intro r hr hrne
    have hbeq : (r == "") = false := by simpa using hrne
    refine ⟨⟨(if (docs.map mkSource).isEmpty then (noDocsAnswer req.query, false, false)
        else generateAnswer c env.llmResult req.query).1, docs.map mkSource,
        evalScores e1 e2 req.reference_answer env⟩, computeMetricScores e1 e2 env,
      query_result_ok c e1 e2 req env docs hret, ?_, ?_, ?_, ?_, ?_, ?_⟩
    · show evalScores e1 e2 req.reference_answer env = some (computeMetricScores e1 e2 env)
      rw [hr]
      simp [evalScores, optStrTruthy, hbeq]
    · rintro (h | h) <;> simp [computeMetricScores, h]
    · intro m hm
      simp [computeMetricScores, hm]
    · intro m hm
      simp [computeMetricScores, hm]
    · intro m hm
      simp [computeMetricScores, hm]
    · intro h1 h2 hok
      have hn1 : e1.isNone = false := by
        cases e1 with
        | none => simp at h1
        | some x => rfl
      have hn2 : e2.isNone = false := by
        cases e2 with
        | none => simp at h2
        | some x => rfl
      rcases hok with h | h | h
      · left
        cases hrel : env.relevancyResult with
        | error m => rw [hrel] at h; simp [Except.isOk, Except.toBool] at h
        | ok s => simp [computeMetricScores, hn1, hn2, hrel]
      · right; left
        cases hb : env.bleuResult with
        | error m => rw [hb] at h; simp [Except.isOk, Except.toBool] at h
        | ok s => simp [computeMetricScores, hb]
      · right; right
        cases hg : env.rougeResult with
        | error m => rw [hg] at h; simp [Except.isOk, Except.toBool] at h
        | ok s => simp [computeMetricScores, hg]

/-- Witness for C9: a concrete query with the non-empty reference answer
"ground truth", both evaluators available and all three metrics computable. -/
theorem C9_evaluation_scores_witness :
    ∃ resp : RagQueryResponse, ∃ ms : MetricScore,
      (query_rag_system (some (.fakeListLLM [])) (some (.wrapper (.fakeListLLM [])))
        (some (.fakeWrapped 768)) ⟨"q", 5, some "ground truth"⟩
        ⟨.ok [⟨"d1", "a.txt", "text", 1⟩], .ok "an answer", .ok 1, .ok 1,
          .ok 1⟩).result = .ok resp ∧
      resp.evaluation_scores = some ms ∧
      (((some (.wrapper (.fakeListLLM [])) : Option RagasLLM) = none ∨
          (some (.fakeWrapped 768) : Option RagasEmbeddings) = none) →
        ms.response_relevancy = none) ∧
      (∀ m, (Except.ok 1 : Except String Rat) = .error m →
        ms.response_relevancy = none) ∧
      (∀ m, (Except.ok 1 : Except String Rat) = .error m → ms.bleu_score = none) ∧
      (∀ m, (Except.ok 1 : Except String Rat) = .error m → ms.rouge_score = none) ∧
      ((some (.wrapper (.fakeListLLM [])) : Option RagasLLM).isSome = true →
        (some (.fakeWrapped 768) : Option RagasEmbeddings).isSome = true →
        ((Except.ok 1 : Except String Rat).isOk = true ∨
          (Except.ok 1 : Except String Rat).isOk = true ∨
          (Except.ok 1 : Except String Rat).isOk = true) →
        (ms.response_relevancy.isSome = true ∨ ms.bleu_score.isSome = true ∨
          ms.rouge_score.isSome = true)) := by
  exact (C9_evaluation_scores (some (.fakeListLLM [])) (some (.wrapper (.fakeListLLM [])))
    (some (.fakeWrapped 768)) ⟨"q", 5, some "ground truth"⟩
    ⟨.ok [⟨"d1", "a.txt", "text", 1⟩], .ok "an answer", .ok 1, .ok 1, .ok 1⟩
    [⟨"d1", "a.txt", "text", 1⟩] rfl).2 "ground truth" rfl (by decide)

/-- Claim C10 (confirmed).  Whatever the outcome of the OpenAI client
construction at import time, the module binds `rag_llm_client`,
`evaluator_llm` and `evaluator_embeddings` to non-None clients (real ones, or
the deterministic fakes on construction failure), so the defensive
defensive `rag_llm_client is None` branch — the "Language Model is currently
unavailable" answer — is never taken, for any request and any collaborator
behaviour. -/
theorem C10_llm_clients_always_bound (openaiInitOk : Bool) (gm rm : String)
    (req : RagQueryRequest) (env : QueryEnv) :
    (initLLMServices openaiInitOk gm rm).rag_llm_client.isSome = true ∧
    (initLLMServices openaiInitOk gm rm).evaluator_llm.isSome = true ∧
    (initLLMServices openaiInitOk gm rm).evaluator_embeddings.isSome = true ∧
    (query_rag_system (initLLMServices openaiInitOk gm rm).rag_llm_client
      (initLLMServices openaiInitOk gm rm).evaluator_llm
      (initLLMServices openaiInitOk gm rm).evaluator_embeddings req
      env).unavailableBranch = false := by
  have hcl : ∃ cl, (initLLMServices openaiInitOk gm rm).rag_llm_client = some cl := by
    cases openaiInitOk with
    | true => exact ⟨_, rfl⟩
    | false => exact ⟨_, rfl⟩
  obtain ⟨cl, hclv⟩ := hcl
  refine ⟨by rw [hclv]; rfl, by cases openaiInitOk <;> rfl,
    by cases openaiInitOk <;> rfl, ?_⟩
  cases hr : env.retrieval with
  | error e => simp [query_rag_system, hr]
  | ok docs =>
      cases docs with
      | nil => simp [query_rag_system, hr]
      | cons d ds =>
          cases hllm : env.llmResult with
          | ok content => simp [query_rag_system, hr, hclv, hllm, generateAnswer]
          | error m => simp [query_rag_system, hr, hclv, hllm, generateAnswer]
